import Mathlib

/-!
Shallow embedding of `src/static/js/dashboard.js` (class `TokenDashboard`):
a browser dashboard that fetches token records, classifies their status,
renders them as HTML table rows, and supports an auto-refresh toggle.

Modelling conventions:
* JavaScript `null`/`undefined` field values are `Option.none`; the `||`
  default operator additionally treats the empty string as falsy.
* The value in `remaining_usage` may be a number or a string (the row
  template interpolates it verbatim), so it is modelled as `JStrOrNat`.
* Date-string fields are modelled by their parse outcome under
  `new Date(s)`: absent/falsy, present-but-unparseable (an invalid date,
  whose timestamp is NaN), or a millisecond epoch timestamp.
* `new Date()` (the current time) is an explicit `now : Int` parameter.
* DOM writes (`container.innerHTML = s`) are modelled as returning the
  string `s`; per the DOM contract of the page, the `tokenTableBody`
  element exists.
-/

/-- A JavaScript value that is either a number (restricted to the
naturals the backend sends) or a string, as can appear in the
`remaining_usage` field of a token record. -/
inductive JStrOrNat where
  | nat (n : Nat)
  | str (s : String)
deriving DecidableEq, Repr

/-- Parse outcome of a date-string field under JavaScript `new Date`:
`absent` for `null`/`undefined`/`""` (falsy), `invalid` for a present but
unparseable string (`getTime()` is NaN), `valid ts` for a string parsing
to epoch-millisecond timestamp `ts`. -/
inductive DateVal where
  | absent
  | invalid
  | valid (ts : Int)
deriving DecidableEq, Repr

/-- A token record as received from `GET /api/tokens`
(fields read by `createTokenRow`, `getStatusText`, `isExpired`). -/
structure Token where
  user_email : Option String
  token_preview : Option String
  auth_type : Option String
  remaining_usage : Option JStrOrNat
  expires_at : DateVal
  last_used : DateVal
deriving DecidableEq, Repr

/-- The JSON body of a token-list response
(`data.tokens`, `data.total_tokens`, `data.active_tokens`). -/
structure TokenListResponse where
  tokens : Option (List Token)
  total_tokens : Option Nat
  active_tokens : Option Nat
deriving DecidableEq, Repr

/-- JavaScript `v || d` for an optional string `v`: `null`, `undefined`
and the empty string are falsy and give the default `d`. -/
def jsOr (v : Option String) (d : String) : String :=
  match v with
  | none => d
  | some s => if s = "" then d else s

/-- The character for decimal digit `d` (`'0'`–`'9'` for `d < 10`). -/
def digitChar (d : Nat) : Char := Char.ofNat (48 + d)

/-- Worker for decimal rendering: peels the least significant digit onto
the accumulator; `fuel` bounds the recursion depth (any `fuel > n`
suffices, since `n` shrinks by a factor of 10 per step). -/
def natToCharsAux : Nat → Nat → List Char → List Char
  | 0, _, acc => acc
  | fuel + 1, n, acc =>
    if n < 10 then digitChar n :: acc
    else natToCharsAux fuel (n / 10) (digitChar (n % 10) :: acc)

/-- Decimal digit list of a natural number, most significant first:
JavaScript `String(n)` for a natural `n`. -/
def natToChars (n : Nat) : List Char := natToCharsAux (n + 1) n []

/-- JavaScript number-to-string conversion for a natural number, as used
by template-literal interpolation (`${index}`, `${response.status}`). -/
def natToString (n : Nat) : String := ⟨natToChars n⟩

/-- HTML escape of one character, as produced by serialising a text node
(`div.textContent = text; div.innerHTML`): `&`, `<`, `>` become entities,
all other characters pass through. -/
def escapeChar (c : Char) : List Char :=
  if c = '&' then ['&', 'a', 'm', 'p', ';']
  else if c = '<' then ['&', 'l', 't', ';']
  else if c = '>' then ['&', 'g', 't', ';']
  else [c]

/-- HTML escape of a character list (pointwise `escapeChar`). -/
def escapeList : List Char → List Char
  | [] => []
  | c :: cs => escapeChar c ++ escapeList cs

/-- `escapeHtml(text)` from the source: set a div's `textContent` and read
back `innerHTML`, which HTML-escapes the text. -/
def escapeHtml (text : String) : String := ⟨escapeList text.data⟩

/-- Number of occurrences of character `c` in a character list. -/
def countCharList (c : Char) : List Char → Nat
  | [] => 0
  | d :: ds => (if d = c then 1 else 0) + countCharList c ds

/-- Number of occurrences of character `c` in a string. -/
def countChar (c : Char) (s : String) : Nat := countCharList c s.data

/-- `isExpired(token)`: false when `expires_at` is falsy; otherwise
`new Date(expires_at) < new Date()`, which is false for an invalid date
(NaN comparison) and a strict timestamp comparison otherwise. -/
def isExpired (now : Int) (t : Token) : Bool :=
  match t.expires_at with
  | .absent => false
  | .invalid => false
  | .valid ts => ts < now

/-- JavaScript strict equality `v === 0`: true only for the number 0
(a string never strictly equals a number). -/
def jsEqZero (v : JStrOrNat) : Bool :=
  match v with
  | .nat n => n = 0
  | .str _ => false

/-- JavaScript ToNumber on a string, for the string forms relevant here:
a whitespace-only (or empty) string coerces to 0, a string of decimal
digits to its value; any other string is modelled as NaN (`none`).
(Signed, fractional or exponent forms are outside the value space the
backend sends and are not modelled.) -/
def jsToNumber? (s : String) : Option Nat :=
  if s.data.all (fun c => c = ' ') then some 0
  else if s.data.all Char.isDigit then
    some (s.data.foldl (fun n c => n * 10 + (c.toNat - 48)) 0)
  else none

/-- JavaScript `v <= k` for `v` number-or-string against a natural `k`:
a string is coerced with ToNumber, and a NaN comparison is false. -/
def jsLeNat (v : JStrOrNat) (k : Nat) : Bool :=
  match v with
  | .nat n => n ≤ k
  | .str s =>
    match jsToNumber? s with
    | some n => n ≤ k
    | none => false

/-- `getStatusText(token)`: "Expired" when expired; otherwise by
`remaining_usage ?? 0`: "Exhausted" at 0, "Low" when ≤ 5, else "Active". -/
def getStatusText (now : Int) (t : Token) : String :=
  if isExpired now t then "Expired"
  else
    let remaining := t.remaining_usage.getD (.nat 0)
    if jsEqZero remaining then "Exhausted"
    else if jsLeNat remaining 5 then "Low"
    else "Active"

/-- `getStatusClass(token)`: the visual class, by the same branching as
`getStatusText`. -/
def getStatusClass (now : Int) (t : Token) : String :=
  if isExpired now t then "status-expired"
  else
    let remaining := t.remaining_usage.getD (.nat 0)
    if jsEqZero remaining then "status-exhausted"
    else if jsLeNat remaining 5 then "status-low"
    else "status-active"

/-- Spec-side predicate, following the spec's words: the record's
`expires_at` is present, parses, and is strictly in the past. -/
def expiresStrictlyInPast (now : Int) (t : Token) : Bool :=
  match t.expires_at with
  | .valid ts => ts < now
  | _ => false

/-- Spec-side map from each status label to its own visual class. -/
def statusClassOf (label : String) : String :=
  if label = "Expired" then "status-expired"
  else if label = "Exhausted" then "status-exhausted"
  else if label = "Low" then "status-low"
  else "status-active"

/-- Zero-padded two-digit decimal rendering (`'2-digit'` fields). -/
def pad2 (n : Nat) : String :=
  if n < 10 then "0" ++ natToString n else natToString n

/-- Civil date (year, month, day) of a day count from the epoch
(proleptic Gregorian, Howard Hinnant's days-to-civil algorithm). -/
def civilFromDays (z0 : Int) : Int × Nat × Nat :=
  let z := z0 + 719468
  let era : Int := Int.fdiv z 146097
  let doe : Nat := (z - era * 146097).toNat
  let yoe : Nat := (doe - doe / 1460 + doe / 36524 - doe / 146096) / 365
  let y : Int := (yoe : Int) + era * 400
  let doy : Nat := doe - (365 * yoe + yoe / 4 - yoe / 100)
  let mp : Nat := (5 * doy + 2) / 153
  let d : Nat := doy - (153 * mp + 2) / 5 + 1
  let m : Nat := if mp < 10 then mp + 3 else mp - 9
  (if m ≤ 2 then y + 1 else y, m, d)

/-- JavaScript number-to-string for a (possibly negative) year. -/
def intToString (i : Int) : String :=
  if i < 0 then "-" ++ natToString (-i).toNat else natToString i.toNat

/-- The `toLocaleString('en-US', {...hour12: false})` display format for a
valid timestamp: `MM/DD/YYYY, HH:mm`. The browser's local timezone is an
environment parameter of the page; it is modelled here as UTC. -/
def formatTimestamp (ms : Int) : String :=
  let days := Int.fdiv ms 86400000
  let msOfDay := (ms - days * 86400000).toNat
  let ymd := civilFromDays days
  pad2 ymd.2.1 ++ "/" ++ pad2 ymd.2.2 ++ "/" ++ intToString ymd.1 ++ ", " ++
    pad2 (msOfDay / 3600000) ++ ":" ++ pad2 (msOfDay % 3600000 / 60000)

/-- `formatDateTime(dateStr)`: `'-'` for a falsy value, `'-'` for an
unparseable date (`isNaN(date.getTime())`), otherwise the locale-formatted
timestamp. (The `catch` branch of the source is unreachable: neither
`new Date` nor `toLocaleString` throws on a string input.) -/
def formatDateTime (d : DateVal) : String :=
  match d with
  | .absent => "-"
  | .invalid => "-"
  | .valid ts => formatTimestamp ts

/-- The email cell content: `escapeHtml(token.user_email || 'unknown')`. -/
def renderUserEmail (t : Token) : String := escapeHtml (jsOr t.user_email "unknown")

/-- The preview cell content: `escapeHtml(token.token_preview || 'N/A')`. -/
def renderTokenPreview (t : Token) : String := escapeHtml (jsOr t.token_preview "N/A")

/-- The auth-type cell content: `escapeHtml(token.auth_type || 'social')`. -/
def renderAuthType (t : Token) : String := escapeHtml (jsOr t.auth_type "social")

/-- The usage cell content: `${token.remaining_usage ?? 0}` — the value
(defaulted only for `null`/`undefined`) interpolated verbatim, with no
escaping. -/
def renderUsage (t : Token) : String :=
  match t.remaining_usage with
  | none => natToString 0
  | some (.nat n) => natToString n
  | some (.str s) => s

/-- `createTokenRow(token, index)`: the template literal of the source,
with each interpolation replaced by the corresponding model function. -/
def createTokenRow (now : Int) (t : Token) (index : Nat) : String :=
  "\n            <tr data-index=\"" ++ natToString index ++
  "\">\n                <td>" ++ renderUserEmail t ++
  "</td>\n                <td><span class=\"token-preview\">" ++ renderTokenPreview t ++
  "</span></td>\n                <td>" ++ renderAuthType t ++
  "</td>\n                <td>" ++ renderUsage t ++
  "</td>\n                <td>" ++ formatDateTime t.expires_at ++
  "</td>\n                <td>" ++ formatDateTime t.last_used ++
  "</td>\n                <td><span class=\"status-badge " ++ getStatusClass now t ++
  "\">" ++ getStatusText now t ++
  "</span></td>\n            </tr>\n        "

/-- `showLoading(container)`: the loading placeholder written to the
table body. -/
def showLoading : String :=
  "\n            <tr>\n                <td colspan=\"7\" class=\"loading\">\n                    <div class=\"spinner\"></div>\n                    Loading token data...\n                </td>\n            </tr>\n        "

/-- `showError(container, message)`: the inline error row written to the
table body; the message is HTML-escaped. -/
def showError (message : String) : String :=
  "\n            <tr>\n                <td colspan=\"7\">\n                    <div class=\"error\">" ++
  escapeHtml message ++
  "</div>\n                </td>\n            </tr>\n        "

/-- `showEmpty(container)`: the empty-state placeholder written to the
table body. -/
def showEmpty : String :=
  "\n            <tr>\n                <td colspan=\"7\">\n                    <div class=\"empty-state\">\n                        <div class=\"empty-state-icon\">~</div>\n                        <p>No token data available</p>\n                    </div>\n                </td>\n            </tr>\n        "

/-- `tokens.map((token, index) => createTokenRow(token, index)).join('')`,
rendering the list from row index `i`. -/
def rowsFrom (now : Int) (i : Nat) : List Token → String
  | [] => ""
  | t :: ts => createTokenRow now t i ++ rowsFrom now (i + 1) ts

/-- `updateTokenTable(data)`: the table-body content after a successful
fetch — the empty-state placeholder when `data.tokens` is falsy or has
length 0, otherwise the joined rows. -/
def updateTokenTable (now : Int) (data : TokenListResponse) : String :=
  match data.tokens with
  | none => showEmpty
  | some [] => showEmpty
  | some l => rowsFrom now 0 l

/-- Outcome of decoding the response body (`await response.json()`):
either a rejected promise (JSON parse error) or a decoded value. -/
inductive JsonResult where
  | parseError (msg : String)
  | parsed (data : TokenListResponse)

/-- Outcome of the fetch step (`await fetch(...)`): a network failure
(rejected promise, carrying the error message), or an HTTP response with
a status, a reason phrase and a body. -/
inductive FetchOutcome where
  | networkError (msg : String)
  | response (status : Nat) (statusText : String) (body : JsonResult)

/-- `response.ok`: the status is in the 2xx success range. -/
def responseOk (status : Nat) : Bool := 200 ≤ status && status ≤ 299

/-- The `try` block of `refreshTokens`: throws (`Except.error`) the
message `HTTP <status>: <statusText>` for a non-ok response, re-throws
a network or JSON-decode failure, and otherwise returns the table-body
content computed by `updateTokenTable`. -/
def refreshTokensBody (now : Int) (o : FetchOutcome) : Except String String :=
  match o with
  | .networkError msg => .error msg
  | .response status statusText body =>
    if !responseOk status then
      .error ("HTTP " ++ natToString status ++ ": " ++ statusText)
    else
      match body with
      | .parseError msg => .error msg
      | .parsed data => .ok (updateTokenTable now data)

/-- `refreshTokens()`: the final table-body content for one fetch
outcome. The `catch` block turns every failure into an inline
`showError` row with the message `Failed to load: <error.message>`;
no failure escapes the function. -/
def refreshTokens (now : Int) (o : FetchOutcome) : String :=
  match refreshTokensBody now o with
  | .ok html => html
  | .error msg => showError ("Failed to load: " ++ msg)

/-- A recurring timer registered with `setInterval`: its handle and its
period in milliseconds. Each tick of an active timer invokes
`refreshTokens` (environment semantics of `setInterval`). -/
structure TimerHandle where
  id : Nat
  periodMs : Nat
deriving DecidableEq, Repr

/-- The mutable state of the dashboard read and written by the
auto-refresh operations: the timer handle, the flag, the interval
constant from the constructor, and the visual state of the `.switch`
element (its `active` class and `aria-checked` attribute). -/
structure DashboardState where
  autoRefreshInterval : Option TimerHandle
  isAutoRefreshEnabled : Bool
  refreshIntervalMs : Nat
  switchActive : Bool
  ariaChecked : String
deriving DecidableEq, Repr

/-- The state established by the constructor (`autoRefreshInterval =
null`, `isAutoRefreshEnabled = false`, `refreshIntervalMs = 30000`),
with the switch initially unpressed. -/
def initialState : DashboardState :=
  { autoRefreshInterval := none
    isAutoRefreshEnabled := false
    refreshIntervalMs := 30000
    switchActive := false
    ariaChecked := "false" }

/-- `startAutoRefresh()`: registers a recurring timer with period
`refreshIntervalMs` (`fresh` is the handle `setInterval` returns) and
sets the flag. -/
def startAutoRefresh (fresh : Nat) (s : DashboardState) : DashboardState :=
  { s with
    autoRefreshInterval := some ⟨fresh, s.refreshIntervalMs⟩
    isAutoRefreshEnabled := true }

/-- `stopAutoRefresh()`: cancels the timer when one is held (the handle
becomes `null` either way) and clears the flag. -/
def stopAutoRefresh (s : DashboardState) : DashboardState :=
  { s with
    autoRefreshInterval := none
    isAutoRefreshEnabled := false }

/-- `toggleAutoRefresh()`: branches on the flag; stops and unpresses the
switch when enabled, starts and presses it when disabled, updating the
`active` class and `aria-checked` in the same branch. -/
def toggleAutoRefresh (fresh : Nat) (s : DashboardState) : DashboardState :=
  if s.isAutoRefreshEnabled then
    { stopAutoRefresh s with switchActive := false, ariaChecked := "false" }
  else
    { startAutoRefresh fresh s with switchActive := true, ariaChecked := "true" }

/-- The timers still registered with the browser in state `s`: ticks of
each of these trigger a `refreshTokens` call; an empty list means time
advancement triggers no further fetch. -/
def activeTimers (s : DashboardState) : List TimerHandle :=
  match s.autoRefreshInterval with
  | none => []
  | some t => [t]

/-- A copy of a token with the three user-supplied string fields removed
(used to compare rendered output with and without those fields). -/
def stripUserStrings (t : Token) : Token :=
  { t with user_email := none, token_preview := none, auth_type := none }

/-- The implicit representation invariant of the dashboard state: the
flag is set exactly when a timer handle is held. -/
def dashboardInvariant (s : DashboardState) : Prop :=
  s.isAutoRefreshEnabled = s.autoRefreshInterval.isSome

/-- A concrete non-expired token with remaining usage 3. -/
def tokenLow : Token :=
  ⟨some "a@b.com", some "sk-1234", some "social", some (.nat 3), .absent, .valid 40⟩

/-- A concrete token with every optional field missing and an
unparseable `last_used` date. -/
def allMissingToken : Token := ⟨none, none, none, none, .absent, .invalid⟩

/-- A concrete token whose `remaining_usage` is a string containing
markup. -/
def evilToken : Token :=
  ⟨some "a@b.com", some "sk-1234", some "social", some (.str "<i>x</i>"), .absent, .absent⟩

/-- `evilToken` with the usage replaced by the number 0. -/
def evilTokenZero : Token := { evilToken with remaining_usage := some (.nat 0) }

theorem strData_append (a b : String) : (a ++ b).data = a.data ++ b.data := rfl

theorem countCharList_append (c : Char) (l1 l2 : List Char) :
    countCharList c (l1 ++ l2) = countCharList c l1 + countCharList c l2 := by
  induction l1 with
  | nil => simp [countCharList]
  | cons d ds ih => simp [countCharList, ih]; omega

theorem countChar_append (c : Char) (a b : String) :
    countChar c (a ++ b) = countChar c a + countChar c b := by
  simp [countChar, strData_append, countCharList_append]

theorem countCharList_escapeChar_lt (c : Char) :
    countCharList '<' (escapeChar c) = 0 := by
  unfold escapeChar
  split_ifs with h1 h2 h3
  · decide
  · decide
  · decide
  · simp [countCharList, h2]

theorem countCharList_escapeChar_gt (c : Char) :
    countCharList '>' (escapeChar c) = 0 := by
  unfold escapeChar
  split_ifs with h1 h2 h3
  · decide
  · decide
  · decide
  · simp [countCharList, h3]

theorem countChar_escapeHtml_lt (s : String) : countChar '<' (escapeHtml s) = 0 := by
  show countCharList '<' (escapeList s.data) = 0
  induction s.data with
  | nil => rfl
  | cons c cs ih =>
    simp [escapeList, countCharList_append, countCharList_escapeChar_lt, ih]

theorem countChar_escapeHtml_gt (s : String) : countChar '>' (escapeHtml s) = 0 := by
  show countCharList '>' (escapeList s.data) = 0
  induction s.data with
  | nil => rfl
  | cons c cs ih =>
    simp [escapeList, countCharList_append, countCharList_escapeChar_gt, ih]

theorem escapeList_append (l1 l2 : List Char) :
    escapeList (l1 ++ l2) = escapeList l1 ++ escapeList l2 := by
  induction l1 with
  | nil => rfl
  | cons c cs ih => simp [escapeList, ih]

theorem escapeHtml_append (a b : String) :
    escapeHtml (a ++ b) = escapeHtml a ++ escapeHtml b := by
  show String.mk (escapeList (a.data ++ b.data)) = _
  rw [escapeList_append]
  rfl

theorem natToCharsAux_digits (fuel : Nat) :
    ∀ (n : Nat) (acc : List Char),
      (∀ c ∈ acc, ∃ d, d < 10 ∧ c = digitChar d) →
      ∀ c ∈ natToCharsAux fuel n acc, ∃ d, d < 10 ∧ c = digitChar d := by
  induction fuel with
  | zero => exact fun n acc hacc c hc => hacc c hc
  | succ fuel ih =>
    intro n acc hacc c hc
    simp only [natToCharsAux] at hc
    split_ifs at hc with h
    · rcases List.mem_cons.mp hc with rfl | hmem
      · exact ⟨n, h, rfl⟩
      · exact hacc c hmem
    · refine ih (n / 10) (digitChar (n % 10) :: acc) (fun c hc' => ?_) c hc
      rcases List.mem_cons.mp hc' with rfl | hm
      · exact ⟨n % 10, Nat.mod_lt n (by decide), rfl⟩
      · exact hacc c hm

theorem natToChars_digits (n : Nat) :
    ∀ c ∈ natToChars n, ∃ d, d < 10 ∧ c = digitChar d :=
  natToCharsAux_digits (n + 1) n [] (by simp)

theorem escapeChar_digitChar (d : Nat) (h : d < 10) :
    escapeChar (digitChar d) = [digitChar d] := by
  interval_cases d <;> decide

theorem escapeList_of_digits (l : List Char)
    (hall : ∀ c ∈ l, ∃ d, d < 10 ∧ c = digitChar d) : escapeList l = l := by
  induction l with
  | nil => rfl
  | cons c cs ih =>
    rcases hall c (by simp) with ⟨d, hd, rfl⟩
    simp only [escapeList, escapeChar_digitChar d hd, List.singleton_append]
    rw [ih (fun c hc => hall c (by simp [hc]))]

theorem escapeList_natToChars (n : Nat) :
    escapeList (natToChars n) = natToChars n :=
  escapeList_of_digits (natToChars n) (natToChars_digits n)

theorem escapeHtml_natToString (n : Nat) :
    escapeHtml (natToString n) = natToString n := by
  show String.mk (escapeList (natToChars n)) = _
  rw [escapeList_natToChars]
  rfl

theorem strAppend_assoc (a b c : String) : a ++ b ++ c = a ++ (b ++ c) := by
  cases a; cases b; cases c
  show String.mk _ = String.mk _
  simp [strData_append]

theorem isExpired_eq_spec (now : Int) (t : Token) :
    isExpired now t = expiresStrictlyInPast now t := by
  unfold isExpired expiresStrictlyInPast
  cases t.expires_at <;> rfl

/-- C1: For every token record (with a numeric or absent remaining
usage), the status label follows the precedence: expired (expires_at
present and strictly in the past) gives "Expired" regardless of usage;
otherwise usage 0 gives "Exhausted", usage 1–5 gives "Low", usage > 5
gives "Active". The label is always one of the four, and the visual
class is the one paired with the label. -/
theorem c1_status_label_precedence (now : Int) (t : Token) (r : Nat)
    (hr : t.remaining_usage = some (JStrOrNat.nat r) ∨
      (t.remaining_usage = none ∧ r = 0)) :
    getStatusText now t =
      (if expiresStrictlyInPast now t then "Expired"
       else if r = 0 then "Exhausted"
       else if r ≤ 5 then "Low"
       else "Active")
    ∧ getStatusClass now t = statusClassOf (getStatusText now t)
    ∧ (getStatusText now t = "Expired" ∨ getStatusText now t = "Exhausted" ∨
       getStatusText now t = "Low" ∨ getStatusText now t = "Active") := by
  have hru : t.remaining_usage.getD (.nat 0) = JStrOrNat.nat r := by
    rcases hr with h | ⟨h, h0⟩
    · simp [h]
    · simp [h, h0]
  simp only [getStatusText, getStatusClass, isExpired_eq_spec, hru, jsEqZero, jsLeNat]
  cases hE : expiresStrictlyInPast now t
  · by_cases h0 : r = 0
    · simp [h0, statusClassOf]
    · by_cases h5 : r ≤ 5 <;> simp [h0, h5, statusClassOf]
  · simp [statusClassOf]

/-- Concrete instance of C1: a non-expired token with usage 3 is "Low"
with class "status-low". -/
theorem c1_status_label_precedence_witness :
    getStatusText 100 tokenLow =
      (if expiresStrictlyInPast 100 tokenLow then "Expired"
       else if (3 : Nat) = 0 then "Exhausted"
       else if (3 : Nat) ≤ 5 then "Low"
       else "Active")
    ∧ getStatusClass 100 tokenLow = statusClassOf (getStatusText 100 tokenLow)
    ∧ (getStatusText 100 tokenLow = "Expired" ∨ getStatusText 100 tokenLow = "Exhausted" ∨
       getStatusText 100 tokenLow = "Low" ∨ getStatusText 100 tokenLow = "Active") :=
  c1_status_label_precedence 100 tokenLow 3 (Or.inl rfl)

/-- C2: the HTML escaping used for the three user-supplied string fields
never lets a `<` or `>` through, and the number of `<` (and of `>`)
characters in a rendered row is exactly the number in the row rendered
with those three fields absent: the user strings cannot contribute
markup characters to the generated row string. -/
theorem c2_user_strings_escaped (now : Int) (t : Token) (i : Nat) :
    (∀ s : String, countChar '<' (escapeHtml s) = 0 ∧ countChar '>' (escapeHtml s) = 0)
    ∧ countChar '<' (createTokenRow now t i)
        = countChar '<' (createTokenRow now (stripUserStrings t) i)
    ∧ countChar '>' (createTokenRow now t i)
        = countChar '>' (createTokenRow now (stripUserStrings t) i) := by
  refine ⟨fun s => ⟨countChar_escapeHtml_lt s, countChar_escapeHtml_gt s⟩, ?_, ?_⟩ <;>
    simp [createTokenRow, countChar_append, renderUserEmail, renderTokenPreview,
      renderAuthType, countChar_escapeHtml_lt, countChar_escapeHtml_gt, stripUserStrings,
      renderUsage, getStatusClass, getStatusText, isExpired, formatDateTime]

/-- C3: every failure of the fetch cycle (network error, non-2xx HTTP
status, JSON-decode error) is caught inside `refreshTokens` and turned
into an inline `showError` row, and every success is rendered; the
function totally maps each outcome to table content, so no exception
passes its boundary. -/
theorem c3_refresh_never_throws (now : Int) (o : FetchOutcome) :
    (∀ e, refreshTokensBody now o = Except.error e →
      refreshTokens now o = showError ("Failed to load: " ++ e))
    ∧ (∀ html, refreshTokensBody now o = Except.ok html →
      refreshTokens now o = html) := by
  constructor <;> intro x hx <;> simp [refreshTokens, hx]

/-- Concrete instance of C3: a network failure is rendered as an inline
error row. -/
theorem c3_refresh_never_throws_witness :
    refreshTokens 0 (.networkError "NetworkError when attempting to fetch resource.")
      = showError ("Failed to load: " ++ "NetworkError when attempting to fetch resource.") :=
  (c3_refresh_never_throws 0
    (.networkError "NetworkError when attempting to fetch resource.")).1 _ rfl

/-- C4: for every non-2xx response, the table body becomes an inline
error row whose message is `Failed to load: HTTP <status>: <statusText>`,
and the rendered row contains the decimal status code verbatim. -/
theorem c4_http_error_shows_status (now : Int) (status : Nat) (stext : String)
    (body : JsonResult) (h : responseOk status = false) :
    refreshTokens now (.response status stext body)
      = showError ("Failed to load: " ++ ("HTTP " ++ natToString status ++ ": " ++ stext))
    ∧ ∃ a b : String,
      refreshTokens now (.response status stext body) = a ++ natToString status ++ b := by
  have h1 : refreshTokens now (.response status stext body)
      = showError ("Failed to load: " ++ ("HTTP " ++ natToString status ++ ": " ++ stext)) := by
    simp [refreshTokens, refreshTokensBody, h]
  refine ⟨h1,
    "\n            <tr>\n                <td colspan=\"7\">\n                    <div class=\"error\">"
      ++ escapeHtml "Failed to load: " ++ escapeHtml "HTTP ",
    escapeHtml ": " ++ escapeHtml stext
      ++ "</div>\n                </td>\n            </tr>\n        ", ?_⟩
  rw [h1]
  simp only [showError, escapeHtml_append, escapeHtml_natToString, strAppend_assoc]

/-- Concrete instance of C4: a 404 response renders an error row carrying
the status code. -/
theorem c4_http_error_shows_status_witness :
    refreshTokens 0 (.response 404 "Not Found" (.parseError "x"))
      = showError ("Failed to load: " ++ ("HTTP " ++ natToString 404 ++ ": " ++ "Not Found")) :=
  (c4_http_error_shows_status 0 404 "Not Found" (.parseError "x") rfl).1

/-- C5: for every successful (2xx) response whose token list is absent or
empty, the table body is set to the empty-state placeholder and no token
rows are rendered. -/
theorem c5_empty_list_placeholder (now : Int) (status : Nat) (stext : String)
    (data : TokenListResponse) (hok : responseOk status = true)
    (hemp : data.tokens = none ∨ data.tokens = some []) :
    refreshTokens now (.response status stext (.parsed data)) = showEmpty
    ∧ updateTokenTable now data = showEmpty := by
  have hu : updateTokenTable now data = showEmpty := by
    rcases hemp with h | h <;> simp [updateTokenTable, h]
  exact ⟨by simp [refreshTokens, refreshTokensBody, hok, hu], hu⟩

/-- Concrete instance of C5: a 200 response with an empty `tokens` array
renders the empty-state placeholder. -/
theorem c5_empty_list_placeholder_witness :
    refreshTokens 0 (.response 200 "OK" (.parsed ⟨some [], some 0, some 0⟩)) = showEmpty
    ∧ updateTokenTable 0 ⟨some [], some 0, some 0⟩ = showEmpty :=
  c5_empty_list_placeholder 0 200 "OK" ⟨some [], some 0, some 0⟩ rfl (Or.inr rfl)

/-- C6: from the initial state, toggling auto-refresh on registers a
recurring 30000 ms timer and presses the switch; toggling again returns
to a state with the flag false and no active timer, so time advancement
triggers no further fetch. Each toggle flips the flag, and the switch's
`active` class and `aria-checked` attribute mirror the flag in the same
step. -/
theorem c6_toggle_on_off (f g : Nat) :
    ((toggleAutoRefresh f initialState).isAutoRefreshEnabled = true
      ∧ (toggleAutoRefresh f initialState).autoRefreshInterval = some ⟨f, 30000⟩
      ∧ (toggleAutoRefresh f initialState).switchActive = true
      ∧ (toggleAutoRefresh f initialState).ariaChecked = "true")
    ∧ ((toggleAutoRefresh g (toggleAutoRefresh f initialState)).isAutoRefreshEnabled = false
      ∧ (toggleAutoRefresh g (toggleAutoRefresh f initialState)).autoRefreshInterval = none
      ∧ (toggleAutoRefresh g (toggleAutoRefresh f initialState)).switchActive = false
      ∧ (toggleAutoRefresh g (toggleAutoRefresh f initialState)).ariaChecked = "false")
    ∧ activeTimers (toggleAutoRefresh g (toggleAutoRefresh f initialState)) = []
    ∧ (∀ (s : DashboardState) (h : Nat),
        (toggleAutoRefresh h s).isAutoRefreshEnabled = !s.isAutoRefreshEnabled
        ∧ (toggleAutoRefresh h s).switchActive = (toggleAutoRefresh h s).isAutoRefreshEnabled
        ∧ (toggleAutoRefresh h s).ariaChecked =
            (if (toggleAutoRefresh h s).isAutoRefreshEnabled then "true" else "false")) := by
  refine ⟨⟨rfl, rfl, rfl, rfl⟩, ⟨rfl, rfl, rfl, rfl⟩, rfl, fun s h => ?_⟩
  unfold toggleAutoRefresh startAutoRefresh stopAutoRefresh
  cases hs : s.isAutoRefreshEnabled <;> simp [hs]

/-- Recorded fact for C7 as stated: with `auth_type` missing, the
rendered auth cell is `"social"`, which is not among the defaults
`0`, `'-'`, `'N/A'`, `'unknown'` that the claim allows. -/
theorem c7_social_default_counterexample :
    renderAuthType allMissingToken = "social"
    ∧ ¬ ("social" ∈ (["0", "-", "N/A", "unknown"] : List String)) := by
  constructor
  · decide
  · decide

/-- C7 (amended): each missing field degrades to its safe default —
`user_email` to `'unknown'`, `token_preview` to `'N/A'`, `auth_type` to
`'social'`, `remaining_usage` to `0` — and every absent or unparseable
date value renders as the placeholder dash `'-'`; the row render never
fails. -/
theorem c7_missing_fields_degrade (t : Token)
    (he : t.user_email = none) (hp : t.token_preview = none)
    (ha : t.auth_type = none) (hu : t.remaining_usage = none) :
    renderUserEmail t = "unknown"
    ∧ renderTokenPreview t = "N/A"
    ∧ renderAuthType t = "social"
    ∧ renderUsage t = "0"
    ∧ formatDateTime DateVal.absent = "-"
    ∧ formatDateTime DateVal.invalid = "-" := by
  refine ⟨?_, ?_, ?_, ?_, rfl, rfl⟩
  · simp only [renderUserEmail, he]; decide
  · simp only [renderTokenPreview, hp]; decide
  · simp only [renderAuthType, ha]; decide
  · simp only [renderUsage, hu]; decide

/-- Concrete instance of amended C7: the all-missing token renders every
field as its default. -/
theorem c7_missing_fields_degrade_witness :
    renderUserEmail allMissingToken = "unknown"
    ∧ renderTokenPreview allMissingToken = "N/A"
    ∧ renderAuthType allMissingToken = "social"
    ∧ renderUsage allMissingToken = "0"
    ∧ formatDateTime DateVal.absent = "-"
    ∧ formatDateTime DateVal.invalid = "-" :=
  c7_missing_fields_degrade allMissingToken rfl rfl rfl rfl

/-- C8: the invariant "flag set iff a timer handle is held" holds in the
constructor's state and after each of `startAutoRefresh`,
`stopAutoRefresh` and `toggleAutoRefresh`, from any state. -/
theorem c8_flag_matches_timer :
    dashboardInvariant initialState
    ∧ ∀ (s : DashboardState) (f : Nat),
      dashboardInvariant (startAutoRefresh f s)
      ∧ dashboardInvariant (stopAutoRefresh s)
      ∧ dashboardInvariant (toggleAutoRefresh f s) := by
  refine ⟨rfl, fun s f => ⟨rfl, rfl, ?_⟩⟩
  unfold dashboardInvariant toggleAutoRefresh startAutoRefresh stopAutoRefresh
  split_ifs <;> rfl

/-- C9: for every token with an absent `remaining_usage` that is not
expired, the usage cell shows `0` and the status is "Exhausted" with
class "status-exhausted". -/
theorem c9_missing_usage_is_zero (now : Int) (t : Token)
    (h1 : t.remaining_usage = none) (h2 : isExpired now t = false) :
    renderUsage t = "0"
    ∧ getStatusText now t = "Exhausted"
    ∧ getStatusClass now t = "status-exhausted" := by
  refine ⟨?_, ?_, ?_⟩
  · simp only [renderUsage, h1]; decide
  · simp [getStatusText, h1, h2, jsEqZero]
  · simp [getStatusClass, h1, h2, jsEqZero]

/-- Concrete instance of C9: the all-missing token renders usage 0 and is
"Exhausted". -/
theorem c9_missing_usage_is_zero_witness :
    renderUsage allMissingToken = "0"
    ∧ getStatusText 0 allMissingToken = "Exhausted"
    ∧ getStatusClass 0 allMissingToken = "status-exhausted" :=
  c9_missing_usage_is_zero 0 allMissingToken rfl rfl

set_option maxRecDepth 8192 in
/-- C10: the `remaining_usage` value is interpolated into the row
verbatim: for the concrete token whose usage is the string
`"<i>x</i>"`, the usage cell is that raw string and the rendered row
contains exactly two more `<` characters than the same row with a
numeric usage; by contrast the error message of `showError` is escaped
and contributes no `<` characters regardless of its content. -/
theorem c10_usage_interpolated_verbatim :
    renderUsage evilToken = "<i>x</i>"
    ∧ countChar '<' (createTokenRow 0 evilToken 0)
        = countChar '<' (createTokenRow 0 evilTokenZero 0) + 2
    ∧ (∀ msg : String, countChar '<' (showError msg) = countChar '<' (showError "")) := by
  refine ⟨rfl, by decide, fun msg => ?_⟩
  simp [showError, countChar_append, countChar_escapeHtml_lt]
